import Mathlib

/-!
Verification development for the rtm-mixer repository.

Shallow embedding of:
- the parameter-coercion helpers of `src/app/main.py` (`_num`, `_flag`),
- the `/api/mix` entry-point flow of `src/app/main.py` (`mix`),
- the staged pipeline of `src/rtm_audio_pipeline/rtm_mixer.py` (`main`):
  its argument parser's option set, the per-stage ffmpeg filter graphs and
  the run control flow (input checks, diagnostic short circuits, failure
  exits, cleanup), and
- the filter graph of `src/rtm/audio_mix.py` (`mix_with_bed`).

Numeric knobs are modelled as rationals (the Python sources carry them as
floats but perform no arithmetic on them beyond scaling a delay to
milliseconds, which is modelled exactly). External processes (ffmpeg
invocations) are modelled by a success oracle, since the DSP engine is an
opaque external collaborator.
-/

namespace RTM

/-! ### Python value model

The coercion helpers of `src/app/main.py` receive values that may be `None`,
numbers, or strings. `PyVal` models that universe; `pyFloat` / `pyInt` model
Python's `float(x)` / `int(x)` builtins (raising = `Except.error`). String
parsing models plain decimal literals with optional sign, which is the shape
of every value these handlers can receive from query/form fields. -/

inductive PyVal where
  | pynone
  | pyint (n : Int)
  | pyfloat (q : Rat)
  | pystr (s : String)
deriving DecidableEq, Repr

inductive PyErr where
  | typeError
  | valueError
deriving DecidableEq, Repr

def digitsToNat (cs : List Char) : Nat :=
  cs.foldl (fun acc c => acc * 10 + (c.toNat - Char.toNat '0')) 0

/-- Unsigned decimal: `digits`, `digits.digits`, `digits.` or `.digits`. -/
def parseUnsignedDecimal? (cs : List Char) : Option Rat :=
  let intPart := cs.takeWhile Char.isDigit
  let rest := cs.dropWhile Char.isDigit
  match rest with
  | [] =>
      if intPart.isEmpty then none else some ((digitsToNat intPart : Int) : Rat)
  | '.' :: fracPart =>
      if fracPart.all Char.isDigit && !(intPart.isEmpty && fracPart.isEmpty) then
        some (((digitsToNat intPart : Int) : Rat)
          + ((digitsToNat fracPart : Int) : Rat) / ((10 : Rat) ^ fracPart.length))
      else none
  | _ => none

/-- Model of Python `float(s)` on a string: signed decimal literal or raise. -/
def parseFloat? (s : String) : Option Rat :=
  match s.toList with
  | '-' :: rest => (parseUnsignedDecimal? rest).map (fun q => -q)
  | '+' :: rest => parseUnsignedDecimal? rest
  | cs => parseUnsignedDecimal? cs

/-- Model of Python `int(s)` on a string: signed digit string or raise. -/
def parseInt? (s : String) : Option Int :=
  match s.toList with
  | '-' :: rest =>
      if !rest.isEmpty && rest.all Char.isDigit then
        some (-(digitsToNat rest : Int))
      else none
  | '+' :: rest =>
      if !rest.isEmpty && rest.all Char.isDigit then
        some ((digitsToNat rest : Int))
      else none
  | cs =>
      if !cs.isEmpty && cs.all Char.isDigit then
        some ((digitsToNat cs : Int))
      else none

/-- Python `float(x)`: floats and ints convert, `None` raises `TypeError`,
strings parse as decimal literals or raise `ValueError`. -/
def pyFloat : PyVal → Except PyErr Rat
  | .pynone => .error .typeError
  | .pyint n => .ok ((n : Rat))
  | .pyfloat q => .ok q
  | .pystr s =>
      match parseFloat? s with
      | some q => .ok q
      | none => .error .valueError

/-- Truncation toward zero, as Python `int(float)` does. -/
def pyTrunc (q : Rat) : Int :=
  if 0 ≤ q then ⌊q⌋ else ⌈q⌉

/-- Python `int(x)`: ints pass through, floats truncate toward zero, `None`
raises `TypeError`, strings parse as signed digit strings or raise. -/
def pyInt : PyVal → Except PyErr Int
  | .pynone => .error .typeError
  | .pyint n => .ok n
  | .pyfloat q => .ok (pyTrunc q)
  | .pystr s =>
      match parseInt? s with
      | some n => .ok n
      | none => .error .valueError

/-! ### Parameter Resolver (`src/app/main.py`, `_num` and `_flag`) -/

/-- `_num(v, default)` of `src/app/main.py` lines 149-157:
`try: return float(v)` / `except: try: return float(default)` /
`except: return 0.0`. -/
def _num (v default : PyVal) : Rat :=
  match pyFloat v with
  | .ok x => x
  | .error _ =>
      match pyFloat default with
      | .ok x => x
      | .error _ => 0

/-- `_flag(v, fb)` of `src/app/main.py` lines 159-166:
`x = v if v is not None else fb`, `try: x = int(x)` / `except: x = 0`,
`return 1 if x == 1 else 0`. -/
def _flag (v fb : PyVal) : Nat :=
  let x := if v = PyVal.pynone then fb else v
  let xi : Int :=
    match pyInt x with
    | .ok n => n
    | .error _ => 0
  if xi = 1 then 1 else 0

/-! ### Mixer CLI surface (`src/rtm_audio_pipeline/rtm_mixer.py` lines 49-77
and `src/app/main.py` lines 214-228) -/

/-- The long options defined by `argparse` in `rtm_mixer.main`
(one `ap.add_argument` per entry, lines 50-75). -/
def mixerOptions : List String :=
  ["--intro", "--narr", "--outro", "--out",
   "--bg_vol", "--voice_gain", "--bg_weight", "--voice_weight",
   "--narr_delay", "--xfade", "--outro_gain",
   "--lufs", "--tp", "--lra",
   "--voice_only", "--step1_only"]

/-- The long options placed on the mixer command line by `mix` in
`src/app/main.py` lines 214-228 (the diagnostic flags are appended only when
the corresponding resolved flag is 1). -/
def mixCmdOptions (voiceOnly step1Only : Bool) : List String :=
  ["--intro", "--narr", "--outro", "--out",
   "--bg_vol", "--duck_threshold", "--duck_ratio",
   "--xfade", "--lufs", "--tp", "--lra"]
  ++ (if voiceOnly then ["--voice_only"] else [])
  ++ (if step1Only then ["--step1_only"] else [])

def unrecognizedOptions (opts : List String) : List String :=
  opts.filter (fun o => !(mixerOptions.contains o))

/-- `argparse` exits the process with status 2 on an unrecognized argument
(no defined option of `rtm_mixer.py` has an abbreviation matched by any
option `mix` passes, so exact membership models argparse's matching). -/
def argparseExitCode (opts : List String) : Option Nat :=
  if (unrecognizedOptions opts).isEmpty then none else some 2

/-! ### Mixer arguments and stage-1/2/3 filter graphs
(`src/rtm_audio_pipeline/rtm_mixer.py` lines 104-171) -/

/-- The parsed arguments of `rtm_mixer.main` (the four path arguments are
kept out of the structure; input-file layout is modelled where needed). -/
structure MixerArgs where
  bg_vol : Rat
  voice_gain : Rat
  bg_weight : Rat
  voice_weight : Rat
  narr_delay : Rat
  xfade : Rat
  outro_gain : Rat
  lufs : Rat
  tp : Rat
  lra : Rat
  voice_only : Bool
  step1_only : Bool
deriving DecidableEq, Repr

/-- The `argparse` defaults of `rtm_mixer.main` lines 56-75, in field order
`bg_vol, voice_gain, bg_weight, voice_weight, narr_delay, xfade, outro_gain,
lufs, tp, lra, voice_only, step1_only`. -/
def defaultArgs : MixerArgs :=
  ⟨1/4, 3, 35/100, 1, 6/10, 12/10, 9/10, -16, -15/10, 11, false, false⟩

/-- The defaults with `--voice_only` set. -/
def voiceOnlyArgs : MixerArgs :=
  ⟨1/4, 3, 35/100, 1, 6/10, 12/10, 9/10, -16, -15/10, 11, true, false⟩

/-- The defaults with `--step1_only` set. -/
def step1OnlyArgs : MixerArgs :=
  ⟨1/4, 3, 35/100, 1, 6/10, 12/10, 9/10, -16, -15/10, 11, false, true⟩

/-- The defaults with both diagnostic flags set. -/
def bothFlagsArgs : MixerArgs :=
  ⟨1/4, 3, 35/100, 1, 6/10, 12/10, 9/10, -16, -15/10, 11, true, true⟩

/-- Python's `round` (banker's rounding: ties go to the even integer). -/
def pyRound (q : Rat) : Int :=
  let f : Int := ⌊q⌋
  let frac : Rat := q - (f : Rat)
  if frac < 1/2 then f
  else if 1/2 < frac then f + 1
  else if f % 2 = 0 then f else f + 1

/-- `delay_ms = max(0, int(round(args.narr_delay * 1000)))`, line 105. -/
def delay_ms (a : MixerArgs) : Nat :=
  (max 0 (pyRound (a.narr_delay * 1000))).toNat

/-- `amix` duration policy. -/
inductive MixDuration where
  | longest
  | shortest
  | first
deriving DecidableEq, Repr

/-- One named ffmpeg filter with the parameters the sources set. -/
inductive AVFilter where
  | aresample (rate : Nat)
  | aformatStereo
  | volume (v : Rat)
  | volumeDb (v : Rat)
  | highpass (f : Nat)
  | adelay (left right : Nat)
  | anull
  | amix (inputs : Nat) (duration : MixDuration) (dropoutTransition : Nat)
      (w1 w2 : Rat)
  | acrossfade (d : Rat)
  | loudnorm (i tp lra : Rat)
  | sidechaincompress (thresholdDb ratio : Rat) (attack release : Nat)
  | afadeIn (d : Rat)
  | afadeOut (d : Rat)
deriving DecidableEq, Repr

/-- An input pad `[n:a]` or a named link label `[name]`. -/
inductive StreamRef where
  | input (n : Nat)
  | label (s : String)
deriving DecidableEq, Repr

/-- One `;`-separated entry of a `-filter_complex` expression: source pads,
a comma chain of filters, and the output label. -/
structure FilterChain where
  src : List StreamRef
  ops : List AVFilter
  dst : String
deriving DecidableEq, Repr

/-- Input file order of the step-1 ffmpeg command (`cmd1`, lines 125-131):
`-i intro` then `-i narr`, so `[0:a]` is the intro bed and `[1:a]` the
narration. -/
def step1Inputs : List String := ["intro", "narr"]

/-- `filter1` of `rtm_mixer.main` lines 106-121: the voice-only graph
processes only `[1:a]` (narration); the normal graph scales the bed, chains
the voice, and blends with a plain weighted `amix`, `duration=shortest`,
`dropout_transition=0`. -/
def filter1 (a : MixerArgs) : List FilterChain :=
  if a.voice_only then
    [⟨[.input 1],
      [.aresample 48000, .aformatStereo, .highpass 120, .volume a.voice_gain,
       .adelay (delay_ms a) (delay_ms a)], "voice"⟩,
     ⟨[.label "voice"], [.anull], "mix"⟩]
  else
    [⟨[.input 0], [.aresample 48000, .aformatStereo, .volume a.bg_vol], "bg"⟩,
     ⟨[.input 1],
      [.aresample 48000, .aformatStereo, .highpass 120, .volume a.voice_gain,
       .adelay (delay_ms a) (delay_ms a)], "voice"⟩,
     ⟨[.label "bg", .label "voice"],
      [.amix 2 .shortest 0 a.bg_weight a.voice_weight], "mix"⟩]

/-- Input file order of the step-2 ffmpeg command (`cmd2`, lines 150-156):
`-i core_mix` then `-i outro`. -/
def step2Inputs : List String := ["core_mix", "outro"]

/-- `filter2` of `rtm_mixer.main` lines 143-147. -/
def filter2 (a : MixerArgs) : List FilterChain :=
  [⟨[.input 0], [.aformatStereo, .aresample 48000], "core"⟩,
   ⟨[.input 1], [.aformatStereo, .aresample 48000, .volume a.outro_gain],
    "out"⟩,
   ⟨[.label "core", .label "out"], [.acrossfade a.xfade], "preout"⟩]

/-- `filter3` of `rtm_mixer.main` line 163 (a plain `-filter:a` chain). -/
def filter3 (a : MixerArgs) : List AVFilter :=
  [.loudnorm a.lufs a.tp a.lra]

def isSidechainCompress : AVFilter → Bool
  | .sidechaincompress _ _ _ _ => true
  | _ => false

/-- Does any chain of the graph contain a sidechain compressor node? -/
def graphHasSidechain (g : List FilterChain) : Bool :=
  g.any (fun c => c.ops.any isSidechainCompress)

/-- Does any chain of the graph read input pad `[n:a]`? -/
def graphReferencesInput (g : List FilterChain) (n : Nat) : Bool :=
  g.any (fun c => c.src.contains (StreamRef.input n))

/-! ### The separate helper `mix_with_bed` (`src/rtm/audio_mix.py`)

This module builds a sidechain-compression graph, but nothing in
`src/app/main.py` or `src/rtm_audio_pipeline/rtm_mixer.py` imports or calls
it; it is not part of the pipeline's stage graphs. Only the no-song path
(`song_clip is None`) is modelled, lines 50-64 and 128-137. Inputs:
`[0:a]` = bed, `[1:a]` = narration. -/
def mixWithBedGraph (bed_gain_db threshold_db ratio : Rat)
    (attack_ms release_ms : Nat) (fade_ms : Nat) : List FilterChain :=
  [⟨[.input 0], [.loudnorm (-16) (-15/10) 11, .volumeDb bed_gain_db], "b0n"⟩,
   ⟨[.input 1], [.loudnorm (-16) (-15/10) 11], "a0n"⟩,
   ⟨[.label "b0n", .label "a0n"],
    [.sidechaincompress threshold_db ratio attack_ms release_ms],
    "bed_duck"⟩,
   ⟨[.label "a0n", .label "bed_duck"], [.amix 2 .longest 200 1 1], "mix"⟩,
   ⟨[.label "mix"],
    [.afadeIn ((fade_ms : Rat) / 1000), .afadeOut ((fade_ms : Rat) / 1000)],
    "outa"⟩]

/-! ### Mixer run control flow (`src/rtm_audio_pipeline/rtm_mixer.py`
lines 79-184) -/

/-- The three ffmpeg invocations of `rtm_mixer.main`. -/
inductive Step where
  | step1
  | step2
  | step3
deriving DecidableEq, Repr

/-- Which of the three scratch/output files exist when the process exits:
`core_mix`, `core_plus_outro`, and `out` (named `outFile` here). -/
structure Files where
  core_mix : Bool
  core_plus_outro : Bool
  outFile : Bool
deriving DecidableEq, Repr

/-- Terminal outcome of one `rtm_mixer.main` run. -/
inductive Outcome where
  | inputMissing
  | failedStep (n : Nat)
  | doneEarly (voiceOnly : Bool)
  | done
deriving DecidableEq, Repr

/-- Result of one `rtm_mixer.main` run: outcome, the ffmpeg steps that were
actually invoked in order, the files left behind, and whether the final
output was produced by renaming step 1's artifact (`core_mix.replace(out)`)
rather than by an encoding step. -/
structure RunResult where
  outcome : Outcome
  executed : List Step
  files : Files
  renamedStep1ToOut : Bool
deriving DecidableEq, Repr

/-- Control flow of `rtm_mixer.main` after argument parsing, lines 79-184.
`inputsExist` models the existence check on the three input paths (line 84);
`debug` models `RTM_DEBUG=1` (line 30); `eng s = true` models "the ffmpeg
invocation for step `s` returned 0 and its output file exists" (the code
treats a nonzero return and a missing output identically, lines 133, 158,
173). Success with `voice_only` or `step1_only` renames `core_mix` onto
`out` and returns (lines 137-140); the cleanup of scratch files (lines
177-182) runs only after step 3 succeeds and only when not in debug. -/
def runMixer (a : MixerArgs) (inputsExist debug : Bool) (eng : Step → Bool) :
    RunResult :=
  if !inputsExist then
    ⟨.inputMissing, [], ⟨false, false, false⟩, false⟩
  else if !eng .step1 then
    ⟨.failedStep 1, [.step1], ⟨false, false, false⟩, false⟩
  else if a.voice_only || a.step1_only then
    ⟨.doneEarly a.voice_only, [.step1], ⟨false, false, true⟩, true⟩
  else if !eng .step2 then
    ⟨.failedStep 2, [.step1, .step2], ⟨true, false, false⟩, false⟩
  else if !eng .step3 then
    ⟨.failedStep 3, [.step1, .step2, .step3], ⟨true, true, false⟩, false⟩
  else if debug then
    ⟨.done, [.step1, .step2, .step3], ⟨true, true, true⟩, false⟩
  else
    ⟨.done, [.step1, .step2, .step3], ⟨false, false, true⟩, false⟩

/-- Process exit status: `sys.exit(2)` for missing inputs (line 86),
`sys.exit(1)` for a failed step (lines 135, 160, 175), 0 otherwise. -/
def mixerExitCode (r : RunResult) : Nat :=
  match r.outcome with
  | .inputMissing => 2
  | .failedStep _ => 1
  | .doneEarly _ => 0
  | .done => 0

/-- The whole mixer process as invoked with a command line: `argparse` runs
first and exits with status 2 on an unrecognized option, before any input
check or ffmpeg invocation; otherwise the parsed run executes. Returns the
exit status and whether the `out` file exists afterwards. -/
def mixerProcess (opts : List String) (a : MixerArgs)
    (inputsExist debug : Bool) (eng : Step → Bool) : Nat × Bool :=
  match argparseExitCode opts with
  | some c => (c, false)
  | none =>
      let r := runMixer a inputsExist debug eng
      (mixerExitCode r, r.files.outFile)

/-! ### The `/api/mix` entry point (`src/app/main.py` lines 119-237) -/

/-- Byte lengths of the three uploaded assets. -/
structure MixRequestSizes where
  introLen : Nat
  narrLen : Nat
  outroLen : Nat
deriving DecidableEq, Repr

/-- What the `mix` handler returns: the mixed file, or an
`HTTPException(500, detail)`. -/
inductive EntryResult where
  | fileResponse
  | httpError (detail : String)
deriving DecidableEq, Repr

/-- Line 192: `if not narr_bytes or len(narr_bytes) < 500` (an empty body
has length 0 < 500, so the length test subsumes the emptiness test). -/
def narrationCheckFails (narrLen : Nat) : Bool :=
  narrLen < 500

/-- The `mix` handler of `src/app/main.py` lines 119-237, in source order:
mixer-script existence check (145), write intro (187-189, no size check),
read and size-check narration (191-194), write outro (197-199, no size
check), build the command line with the resolved knobs and flags (214-228),
run the mixer process, and fail with "Mixing failed" unless it exited 0 and
produced the output file (230-232). -/
def mixEntry (mixerScriptExists : Bool) (sz : MixRequestSizes)
    (voiceOnly step1Only : Bool) (a : MixerArgs) (inputsExist debug : Bool)
    (eng : Step → Bool) : EntryResult :=
  if !mixerScriptExists then
    .httpError "Mixer script not found"
  else if narrationCheckFails sz.narrLen then
    .httpError "Narration audio is empty or too short"
  else
    let pr := mixerProcess (mixCmdOptions voiceOnly step1Only) a
      inputsExist debug eng
    if pr.1 ≠ 0 ∨ pr.2 = false then
      .httpError "Mixing failed"
    else
      .fileResponse

/-- The engine oracle of a run whose step-2 ffmpeg invocation fails while
the others succeed. -/
def engFailStep2 : Step → Bool
  | .step2 => false
  | _ => true

/-! ## Theorems -/

/-- C1 (counterexample): at the parser defaults — a parameter set without
`voiceOnlyMode` — the stage-1 graph built by the pipeline contains no
sidechain-compressor node at all, refuting the claim that it always
contains one driven by `duckThreshold`/`duckRatio`. -/
theorem stage1_graph_no_sidechain_at_defaults :
    defaultArgs.voice_only = false
    ∧ graphHasSidechain (filter1 defaultArgs) = false := by
  decide

/-- C1 (amended): for every parameter set without `voiceOnlyMode`, the
stage-1 graph contains no sidechain compressor; the bed and narration are
blended by a plain weighted `amix` (`duration=shortest`), and the ducking
knobs never parameterize this graph. The only sidechain-compressor graph in
the repository is built by `mix_with_bed` in `src/rtm/audio_mix.py`, which
the pipeline never invokes. -/
theorem stage1_blend_is_plain_amix (a : MixerArgs)
    (h : a.voice_only = false) :
    graphHasSidechain (filter1 a) = false
    ∧ (filter1 a).getLast? = some ⟨[.label "bg", .label "voice"],
        [.amix 2 .shortest 0 a.bg_weight a.voice_weight], "mix"⟩
    ∧ graphHasSidechain (mixWithBedGraph (-16) (-30) 8 5 300 600) = true := by
  refine ⟨?_, ?_, by decide⟩
  · simp [filter1, h, graphHasSidechain, isSidechainCompress]
  · simp [filter1, h]

theorem stage1_blend_is_plain_amix_witness :
    graphHasSidechain (filter1 defaultArgs) = false
    ∧ (filter1 defaultArgs).getLast? = some ⟨[.label "bg", .label "voice"],
        [.amix 2 .shortest 0 defaultArgs.bg_weight defaultArgs.voice_weight],
        "mix"⟩
    ∧ graphHasSidechain (mixWithBedGraph (-16) (-30) 8 5 300 600) = true :=
  stage1_blend_is_plain_amix defaultArgs rfl

/-- C2: the command line built by the `mix` entry point always carries
`--duck_threshold` and `--duck_ratio`, the mixer's argument parser defines
neither, so `argparse` exits with status 2 and the entry point reports
"Mixing failed": no request through `mix` can produce a mixed output. -/
theorem duck_options_unrecognized_no_mix_output :
    (∀ vo so : Bool,
      (mixCmdOptions vo so).contains "--duck_threshold" = true
      ∧ (mixCmdOptions vo so).contains "--duck_ratio" = true
      ∧ argparseExitCode (mixCmdOptions vo so) = some 2)
    ∧ mixerOptions.contains "--duck_threshold" = false
    ∧ mixerOptions.contains "--duck_ratio" = false
    ∧ ∀ (mse : Bool) (sz : MixRequestSizes) (vo so : Bool) (a : MixerArgs)
        (ie dbg : Bool) (eng : Step → Bool),
        mixEntry mse sz vo so a ie dbg eng ≠ EntryResult.fileResponse := by
  refine ⟨fun vo so => by cases vo <;> cases so <;> exact ⟨by decide, by decide, by decide⟩,
    by decide, by decide, ?_⟩
  intro mse sz vo so a ie dbg eng
  cases mse with
  | false => simp [mixEntry]
  | true =>
      cases h : narrationCheckFails sz.narrLen with
      | true => simp [mixEntry, h]
      | false =>
          have hap : argparseExitCode (mixCmdOptions vo so) = some 2 := by
            cases vo <;> cases so <;> decide
          simp [mixEntry, h, mixerProcess, hap]

/-- C3: `_num` is total — for any candidate value it returns the parsed
float when parsing succeeds, the (parsed) compiled-in default when parsing
of the candidate fails, and `0.0` when both fail; it never raises. -/
theorem num_coercion_total_with_default_fallback (v d : PyVal) (q : Rat) :
    ((pyFloat v).isOk = false → pyFloat d = Except.ok q → _num v d = q)
    ∧ (pyFloat v = Except.ok q → _num v d = q)
    ∧ ((pyFloat v).isOk = false → (pyFloat d).isOk = false → _num v d = 0) := by
  refine ⟨?_, ?_, ?_⟩
  · intro hv hd
    cases hfv : pyFloat v with
    | ok x => rw [hfv] at hv; simp [Except.isOk, Except.toBool] at hv
    | error e => simp [_num, hfv, hd]
  · intro hv
    simp [_num, hv]
  · intro hv hd
    cases hfv : pyFloat v with
    | ok x => rw [hfv] at hv; simp [Except.isOk, Except.toBool] at hv
    | error e =>
        cases hfd : pyFloat d with
        | ok x => rw [hfd] at hd; simp [Except.isOk, Except.toBool] at hd
        | error e₂ => simp [_num, hfv, hfd]

theorem num_coercion_total_with_default_fallback_witness :
    (pyFloat (PyVal.pystr "garbage")).isOk = false
    ∧ _num (PyVal.pystr "garbage") (PyVal.pyfloat (1/4)) = 1/4 :=
  ⟨by decide,
   (num_coercion_total_with_default_fallback (PyVal.pystr "garbage")
     (PyVal.pyfloat (1/4)) (1/4)).1 (by decide) rfl⟩

/-- C4: with `voice_only` or `step1_only` set and a successful step 1, the
run terminates early: step 1's artifact is promoted to the output path by a
rename (not re-encoded), only step 1 is ever invoked (so neither the
crossfade nor the loudness stage runs), and the stage-1 command reads only
the intro and narration inputs — never the outro. -/
theorem short_circuit_promotes_step1_artifact (a : MixerArgs) (dbg : Bool)
    (eng : Step → Bool) (h : a.voice_only = true ∨ a.step1_only = true)
    (h1 : eng .step1 = true) :
    runMixer a true dbg eng
      = ⟨Outcome.doneEarly a.voice_only, [Step.step1], ⟨false, false, true⟩,
         true⟩
    ∧ step1Inputs.contains "outro" = false := by
  have hor : (a.voice_only || a.step1_only) = true := by
    rcases h with h | h <;> simp [h]
  exact ⟨by simp [runMixer, h1, hor], by decide⟩

theorem short_circuit_promotes_step1_artifact_witness :
    runMixer step1OnlyArgs true false (fun _ => true)
      = ⟨Outcome.doneEarly false, [Step.step1], ⟨false, false, true⟩, true⟩
    ∧ step1Inputs.contains "outro" = false :=
  short_circuit_promotes_step1_artifact step1OnlyArgs false (fun _ => true)
    (Or.inr rfl) rfl

/-- C5: with `voice_only` set, the stage-1 graph never reads the bed input
pad `[0:a]` and reads only the narration pad `[1:a]`, whose chain is still
high-pass filtered at 120 Hz, gained by `voice_gain`, and delayed by
`delay_ms` (the rounded `narr_delay` in milliseconds); `[0:a]` is the intro
bed and `[1:a]` the narration in the step-1 command's input order. -/
theorem voice_only_graph_excludes_bed (a : MixerArgs)
    (h : a.voice_only = true) :
    graphReferencesInput (filter1 a) 0 = false
    ∧ graphReferencesInput (filter1 a) 1 = true
    ∧ filter1 a = [⟨[.input 1],
        [.aresample 48000, .aformatStereo, .highpass 120,
         .volume a.voice_gain, .adelay (delay_ms a) (delay_ms a)], "voice"⟩,
       ⟨[.label "voice"], [.anull], "mix"⟩]
    ∧ step1Inputs.get? 0 = some "intro"
    ∧ step1Inputs.get? 1 = some "narr" := by
  refine ⟨?_, ?_, by simp [filter1, h], rfl, rfl⟩
  · simp [filter1, h, graphReferencesInput]
  · simp [filter1, h, graphReferencesInput]

theorem voice_only_graph_excludes_bed_witness :
    graphReferencesInput (filter1 voiceOnlyArgs) 0 = false
    ∧ graphReferencesInput (filter1 voiceOnlyArgs) 1 = true
    ∧ filter1 voiceOnlyArgs = [⟨[.input 1],
        [.aresample 48000, .aformatStereo, .highpass 120,
         .volume voiceOnlyArgs.voice_gain,
         .adelay (delay_ms voiceOnlyArgs) (delay_ms voiceOnlyArgs)],
        "voice"⟩,
       ⟨[.label "voice"], [.anull], "mix"⟩]
    ∧ step1Inputs.get? 0 = some "intro"
    ∧ step1Inputs.get? 1 = some "narr" :=
  voice_only_graph_excludes_bed voiceOnlyArgs rfl

/-- C6: when both diagnostic flags are set, `voice_only` wins: stage 1 uses
the voice-only graph (the bed pad `[0:a]` is never read), and on stage-1
success the run ends early with the voice-only outcome recorded, after
invoking only step 1. -/
theorem voice_only_takes_precedence (a : MixerArgs) (dbg : Bool)
    (eng : Step → Bool) (hv : a.voice_only = true) (_hs : a.step1_only = true)
    (h1 : eng .step1 = true) :
    graphReferencesInput (filter1 a) 0 = false
    ∧ runMixer a true dbg eng
      = ⟨Outcome.doneEarly true, [Step.step1], ⟨false, false, true⟩, true⟩ := by
  constructor
  · simp [filter1, hv, graphReferencesInput]
  · simp [runMixer, h1, hv]

theorem voice_only_takes_precedence_witness :
    graphReferencesInput (filter1 bothFlagsArgs) 0 = false
    ∧ runMixer bothFlagsArgs true false (fun _ => true)
      = ⟨Outcome.doneEarly true, [Step.step1], ⟨false, false, true⟩, true⟩ :=
  voice_only_takes_precedence bothFlagsArgs false (fun _ => true) rfl rfl rfl

/-- C7: in the normal (non-voice-only) stage-1 graph, the output chain
blends `[bg]` and `[voice]` with a plain `amix` carrying the explicit
weights `bg_weight`/`voice_weight` and the `duration=shortest` policy
(`dropout_transition=0`), so the mix ends with the shorter input. -/
theorem normal_mix_weighted_amix_shortest (a : MixerArgs)
    (h : a.voice_only = false) :
    (⟨[.label "bg", .label "voice"],
      [.amix 2 .shortest 0 a.bg_weight a.voice_weight], "mix"⟩ : FilterChain)
        ∈ filter1 a
    ∧ (filter1 a).getLast? = some ⟨[.label "bg", .label "voice"],
        [.amix 2 .shortest 0 a.bg_weight a.voice_weight], "mix"⟩ := by
  constructor
  · simp [filter1, h]
  · simp [filter1, h]

theorem normal_mix_weighted_amix_shortest_witness :
    (⟨[.label "bg", .label "voice"],
      [.amix 2 .shortest 0 defaultArgs.bg_weight defaultArgs.voice_weight],
      "mix"⟩ : FilterChain) ∈ filter1 defaultArgs
    ∧ (filter1 defaultArgs).getLast? = some ⟨[.label "bg", .label "voice"],
        [.amix 2 .shortest 0 defaultArgs.bg_weight defaultArgs.voice_weight],
        "mix"⟩ :=
  normal_mix_weighted_amix_shortest defaultArgs rfl

/-- C8 (counterexample): a 10-byte intro bed (far below any plausible
minimum size) is not rejected as invalid input by the entry point — the
request proceeds to mixer invocation and fails only with the generic
"Mixing failed"; the entry point size-checks the narration alone. -/
theorem undersized_intro_not_rejected :
    mixEntry true ⟨10, 1000, 1000⟩ false false defaultArgs true false
        (fun _ => true)
      ≠ EntryResult.httpError "Narration audio is empty or too short"
    ∧ mixEntry true ⟨10, 1000, 1000⟩ false false defaultArgs true false
        (fun _ => true)
      = EntryResult.httpError "Mixing failed" := by
  decide

/-- C8 (amended): only the narration asset's size is verified — a narration
under 500 bytes is rejected with the distinct invalid-input error before the
mixer process is invoked (regardless of the other assets' sizes); the mixer
itself verifies only existence of the three inputs before any stage runs
(exit status 2, with no step invoked), distinct from an engine failure
(exit status 1); intro and outro sizes are never checked. -/
theorem narration_size_check_only (sz : MixRequestSizes) (vo so : Bool)
    (a : MixerArgs) (ie dbg : Bool) (eng : Step → Bool)
    (h : sz.narrLen < 500) :
    mixEntry true sz vo so a ie dbg eng
      = EntryResult.httpError "Narration audio is empty or too short"
    ∧ (runMixer a false dbg eng).executed = []
    ∧ mixerExitCode (runMixer a false dbg eng) = 2
    ∧ mixerExitCode (runMixer a true dbg (fun _ => false)) = 1 := by
  refine ⟨?_, by simp [runMixer], by simp [runMixer, mixerExitCode], ?_⟩
  · have hc : narrationCheckFails sz.narrLen = true := by
      simp [narrationCheckFails, h]
    simp [mixEntry, hc]
  · simp [runMixer, mixerExitCode]

theorem narration_size_check_only_witness :
    mixEntry true ⟨1000, 10, 1000⟩ false false defaultArgs true false
        (fun _ => true)
      = EntryResult.httpError "Narration audio is empty or too short"
    ∧ (runMixer defaultArgs false false (fun _ => true)).executed = []
    ∧ mixerExitCode (runMixer defaultArgs false false (fun _ => true)) = 2
    ∧ mixerExitCode (runMixer defaultArgs true false (fun _ => false)) = 1 :=
  narration_size_check_only ⟨1000, 10, 1000⟩ false false defaultArgs true
    false (fun _ => true) (by decide)

/-- C9 (counterexample): with the engine failing at step 2 in normal mode
(`RTM_DEBUG` unset), the run fails at stage 2 yet stage 1's `core_mix`
artifact is retained — refuting the claim that it is deleted in normal
mode (the cleanup code runs only after stage-3 success). -/
theorem stage2_failure_retains_core_mix_normal_mode :
    (runMixer defaultArgs true false engFailStep2).outcome
      = Outcome.failedStep 2
    ∧ (runMixer defaultArgs true false engFailStep2).files.core_mix = true := by
  decide

/-- C9 (amended): when stage 2 fails (in any debug mode, flags unset), the
run aborts identifying stage 2 with exit status 1, no final artifact exists
at the output path, and stage 1's `core_mix` intermediate is retained in
both normal and debug modes. -/
theorem stage2_failure_aborts_no_final_artifact (a : MixerArgs) (dbg : Bool)
    (eng : Step → Bool) (h1 : eng .step1 = true) (h2 : eng .step2 = false)
    (hv : a.voice_only = false) (hs : a.step1_only = false) :
    runMixer a true dbg eng
      = ⟨Outcome.failedStep 2, [Step.step1, Step.step2],
         ⟨true, false, false⟩, false⟩
    ∧ mixerExitCode (runMixer a true dbg eng) = 1 := by
  have hr : runMixer a true dbg eng
      = ⟨Outcome.failedStep 2, [Step.step1, Step.step2],
         ⟨true, false, false⟩, false⟩ := by
    simp [runMixer, h1, h2, hv, hs]
  exact ⟨hr, by rw [hr]; rfl⟩

theorem stage2_failure_aborts_no_final_artifact_witness :
    runMixer defaultArgs true false engFailStep2
      = ⟨Outcome.failedStep 2, [Step.step1, Step.step2],
         ⟨true, false, false⟩, false⟩
    ∧ mixerExitCode (runMixer defaultArgs true false engFailStep2) = 1 :=
  stage2_failure_aborts_no_final_artifact defaultArgs false engFailStep2
    rfl rfl rfl rfl

/-- C10: `_flag` returns exactly 0 or 1, and returns 1 precisely when
integer coercion of the preferred value (the query value unless it is
`None`, else the form value) succeeds with exactly 1; any other integer and
any coercion failure yield 0. -/
theorem flag_coercion_zero_one (v fb : PyVal) :
    (_flag v fb = 0 ∨ _flag v fb = 1)
    ∧ (_flag v fb = 1
        ↔ pyInt (if v = PyVal.pynone then fb else v) = Except.ok 1) := by
  constructor
  · by_cases hp : v = PyVal.pynone
    · cases hx : pyInt fb with
      | ok n => by_cases hn : n = 1 <;> simp [_flag, hp, hx, hn]
      | error e => simp [_flag, hp, hx]
    · cases hx : pyInt v with
      | ok n => by_cases hn : n = 1 <;> simp [_flag, hp, hx, hn]
      | error e => simp [_flag, hp, hx]
  · unfold _flag
    cases hx : pyInt (if v = PyVal.pynone then fb else v) with
    | ok n =>
        by_cases hn : n = 1
        · subst hn; simp [hx]
        · simp [hx, hn]
    | error e => simp [hx]

end RTM
